import Mathlib

/-!
# CardputerADV MotionLab: a shallow embedding of `src/main.cpp`

The C++ `float`s are idealised as elements of an arbitrary linearly ordered
field `F` (exact arithmetic, no NaN, no rounding); every definition is
computable and can be run at `F = ℚ`.  The one place where the rounding of
`float` decides what the program stores is the cast `(int)` of the cube
projection: there the arithmetic is that of IEEE binary32, every operation
rounded to nearest (`f32`), on the rationals.  The theorem about real angles
instantiates `F = ℝ`.  The library functions `sqrt`, `atan2`, `cos`, `sin`
are parameters (`MathFns`).  Everything a tick reads from the outside world (the keyboard,
the accelerometer, `millis()`, `rand()`) is a field of `Input`.  The globals
and the function-local `static`s are the fields of `App`; the globals `ax`,
`ay`, `az` are written by `getAccel` before every use, so the sample of the
tick stands for them.  Each mode function is a map from the input of a tick
and the state before it to the state after it.  Drawing calls are not
modelled.
-/

namespace MotionLab

/-- `enum AppMode`. -/
inductive AppMode where
  | MODE_SPLASH | MODE_MENU | MODE_CUBE | MODE_LEVEL
  | MODE_LAUNCH | MODE_GAME | MODE_GRAPH | MODE_RAW
  deriving DecidableEq, Repr

/-- The `<cmath>` functions the program calls. -/
structure MathFns (F : Type) where
  sqrt : F → F
  atan2 : F → F → F
  cos : F → F
  sin : F → F

/-- What one tick reads from its collaborators. -/
structure Input (F : Type) where
  /-- `M5Cardputer.Keyboard.isKeyPressed(c)` -/
  keys : Char → Bool
  /-- `M5.Imu.getAccel(&ax, &ay, &az)` -/
  ax : F
  ay : F
  az : F
  /-- `millis()` as read on line 110 (`peakTime = millis()`) -/
  millisPeak : ℕ
  /-- `millis()` as read on line 130 (the decay test) -/
  millisDecay : ℕ
  /-- the first and the second `rand()` of line 222 -/
  rand1 : ℕ
  rand2 : ℕ

/-- The globals of `main.cpp`, the stored preference, and the `static` locals
of `demoLaunch`, `demoTiltGame` and `demoGraph`. -/
structure App (F : Type) where
  currentMode : AppMode
  zoomScale : F
  highG : F
  /-- the value stored under the key `"highG"` of namespace `"motion-lab"` -/
  prefs : Option F
  -- demoLaunch
  currentMax : F
  peakTime : ℕ
  -- demoTiltGame
  firstRun : Bool
  isBubbleMode : Bool
  goalInit : Bool
  px : F
  py : F
  gx_g : ℤ
  gy_g : ℤ
  -- demoGraph
  bX : List F
  bY : List F
  bZ : List F
  idx : ℕ

section Defs

variable {F : Type} [LinearOrderedField F]

/-- The state at program start: the initialisers of the globals and of the
`static` locals (zero where none is written); `stored` is what the flash
holds under `"highG"`. -/
def App.init (stored : Option F) : App F where
  currentMode := AppMode.MODE_SPLASH
  zoomScale := 90
  highG := 0
  prefs := stored
  currentMax := 0
  peakTime := 0
  firstRun := true
  isBubbleMode := true
  goalInit := false
  px := 0
  py := 0
  gx_g := 0
  gy_g := 0
  bX := List.replicate 240 0
  bY := List.replicate 240 0
  bZ := List.replicate 240 0
  idx := 0

/-- `prefs.getFloat(key, def)`. -/
def getFloat (store : Option F) (dflt : F) : F :=
  match store with
  | some v => v
  | none => dflt

/-- The part of `setup()` that touches the state: line 46. -/
def setup (st : App F) : App F :=
  { st with highG := getFloat st.prefs 0 }

/-- `exitRequested()`. -/
def exitRequested (keys : Char → Bool) : Bool :=
  keys (Char.ofNat 0x4C) || keys (Char.ofNat 0x2A)

/-- Subtraction of two `uint32_t` values. -/
def u32sub (a b : ℕ) : ℕ :=
  (a % 2 ^ 32 + (2 ^ 32 - b % 2 ^ 32)) % 2 ^ 32

/-- Line 105: `force = sqrt(ax*ax + ay*ay + az*az)`. -/
def launchForce (m : MathFns F) (inp : Input F) : F :=
  m.sqrt (inp.ax * inp.ax + inp.ay * inp.ay + inp.az * inp.az)

/-- `demoLaunch()`, lines 99-131 (state only). -/
def demoLaunch (m : MathFns F) (inp : Input F) (st : App F) : App F :=
  if exitRequested inp.keys then { st with currentMode := AppMode.MODE_MENU }
  else
    let force := launchForce m inp
    -- Record high peaks
    let st1 : App F :=
      if force > 1.5 ∧ force > st.currentMax then
        let s : App F := { st with currentMax := force, peakTime := inp.millisPeak % 2 ^ 32 }
        if s.currentMax > s.highG then
          { s with highG := s.currentMax, prefs := some s.currentMax }
        else s
      else st
    -- Reset local record
    let st2 : App F :=
      if inp.keys 'r' then { st1 with highG := 0, currentMax := 0, prefs := some 0 }
      else st1
    if st2.currentMax < 1.5 ∨ u32sub inp.millisDecay st2.peakTime > 3000 then
      { st2 with currentMax := 0 }
    else st2

/-- `demoCube()`, lines 155-169 (state only: the zoom logic). -/
def demoCube (inp : Input F) (st : App F) : App F :=
  if exitRequested inp.keys then { st with currentMode := AppMode.MODE_MENU }
  else
    let z1 : F :=
      if inp.keys '+' || inp.keys '=' then
        let z := st.zoomScale + 2
        if z > 200 then 200 else z
      else st.zoomScale
    let z2 : F :=
      if inp.keys '-' || inp.keys '_' then
        let z := z1 - 2
        if z < 0 then 0 else z
      else z1
    let z3 : F := if inp.keys '0' then 100 else z2
    { st with zoomScale := z3 }

/-- A run of `demoCube` ticks. -/
def runCube (inputs : List (Input F)) (st : App F) : App F :=
  inputs.foldl (fun s i => demoCube i s) st

/-- The Arduino macro `constrain(amt, low, high)`. -/
def constrain (amt low high : F) : F :=
  if amt < low then low else if amt > high then high else amt

/-- `demoTiltGame()`, lines 217-239 (state only). -/
def demoTiltGame (inp : Input F) (st : App F) : App F :=
  if exitRequested inp.keys then
    { st with currentMode := AppMode.MODE_MENU, firstRun := true, goalInit := false }
  else
    let s1 : App F :=
      if st.firstRun then { st with px := 120, py := 67, firstRun := false } else st
    let s2 : App F :=
      if !s1.goalInit then
        { s1 with gx_g := 20 + ((inp.rand1 % 200 : ℕ) : ℤ),
                  gy_g := 20 + ((inp.rand2 % 100 : ℕ) : ℤ), goalInit := true }
      else s1
    let s : F := 4
    let s3 : App F :=
      if s2.isBubbleMode then { s2 with px := s2.px + inp.ax * s, py := s2.py + -inp.ay * s }
      else { s2 with px := s2.px - inp.ax * s, py := s2.py - -inp.ay * s }
    let s4 : App F := { s3 with px := constrain s3.px 10 230, py := constrain s3.py 10 125 }
    if (s4.px - (s4.gx_g : F)) ^ 2 + (s4.py - (s4.gy_g : F)) ^ 2 < 144 then
      { s4 with isBubbleMode := !s4.isBubbleMode, goalInit := false }
    else s4

/-- A run of `demoTiltGame` ticks. -/
def runTilt (inputs : List (Input F)) (st : App F) : App F :=
  inputs.foldl (fun s i => demoTiltGame i s) st

/-- `demoGraph()`, lines 242-247 (state only). -/
def demoGraph (inp : Input F) (st : App F) : App F :=
  if exitRequested inp.keys then { st with currentMode := AppMode.MODE_MENU }
  else
    { st with bX := st.bX.set st.idx (inp.ax * 40),
              bY := st.bY.set st.idx (inp.ay * 40),
              bZ := st.bZ.set st.idx (inp.az * 40),
              idx := (st.idx + 1) % 240 }

/-- A run of `demoGraph` ticks. -/
def runGraph (inputs : List (Input F)) (st : App F) : App F :=
  inputs.foldl (fun s i => demoGraph i s) st

/-- A run of `demoLaunch` ticks. -/
def runLaunch (m : MathFns F) (inputs : List (Input F)) (st : App F) : App F :=
  inputs.foldl (fun s i => demoLaunch m i s) st

/-- The state of the peak tracker while a peak of 3 G taken at `t0` is held or
has been dropped. -/
def HeldOrIdle (t0 : ℕ) (st : App F) : Prop :=
  st.currentMax = 0 ∨ (st.currentMax = 3 ∧ st.peakTime = t0)

/-- What the three buffers and the cursor hold after the ticks `l`. -/
def GraphInv (l : List (Input F)) (st : App F) : Prop :=
  st.idx = l.length % 240 ∧
    st.bX.length = 240 ∧ st.bY.length = 240 ∧ st.bZ.length = 240 ∧
    (∀ t, t < l.length → l.length ≤ t + 240 →
      st.bX[t % 240]? = (l[t]?).map (fun i => i.ax * 40)) ∧
    (∀ t, t < l.length → l.length ≤ t + 240 →
      st.bY[t % 240]? = (l[t]?).map (fun i => i.ay * 40)) ∧
    (∀ t, t < l.length → l.length ≤ t + 240 →
      st.bZ[t % 240]? = (l[t]?).map (fun i => i.az * 40))

/-! Concrete inputs and states, used to run the definitions. -/

/-- No key is down. -/
def noKeys : Char → Bool := fun _ => false

/-- Only the key `r` is down. -/
def onlyR : Char → Bool := fun c => c == 'r'

/-- The device lies flat and still, no key is down, `millis()` reads `t`. -/
def restInputAt (t : ℕ) : Input F :=
  { keys := noKeys, ax := 0, ay := 0, az := 1, millisPeak := t, millisDecay := t,
    rand1 := 0, rand2 := 0 }

/-- The tick number `n` of a ramp: the sample is `(n, 2n, 3n)`, no key is down. -/
def rampInput (n : ℕ) : Input F :=
  { keys := noKeys, ax := n, ay := 2 * n, az := 3 * n, millisPeak := 0, millisDecay := 0,
    rand1 := 0, rand2 := 0 }

/-- A 4 G sample along `z` read at `millis() = 3001`, no key is down. -/
def spikeInput : Input F :=
  { keys := noKeys, ax := 0, ay := 0, az := 4, millisPeak := 3001, millisDecay := 3001,
    rand1 := 0, rand2 := 0 }

/-- The device at rest with the reset key `r` down. -/
def resetInput : Input F :=
  { keys := onlyR, ax := 0, ay := 0, az := 1, millisPeak := 0, millisDecay := 0,
    rand1 := 0, rand2 := 0 }

/-- A peak of 3 G taken at `millis() = 0` is held; it is also the record. -/
def heldState : App F :=
  { App.init (some 3) with highG := 3, currentMax := 3, peakTime := 0 }

/-- Only the first exit key (code `0x4C`) is down. -/
def exitInput : Input F :=
  { keys := fun c => c == Char.ofNat 0x4C, ax := 0, ay := 0, az := 1, millisPeak := 0,
    millisDecay := 0, rand1 := 0, rand2 := 0 }

/-- A violent sideways shake, no key is down. -/
def shakeInput : Input F :=
  { keys := noKeys, ax := 1000000, ay := -1000000, az := 1, millisPeak := 0,
    millisDecay := 0, rand1 := 0, rand2 := 0 }

/-- A tilt that takes the ball from the centre to `(100, 100)` in the bubble
mode, while `rand()` returns 80 and then 80, which puts a new goal at
`(100, 100)`; no key is down. -/
def approachInput : Input F :=
  { keys := noKeys, ax := -5, ay := -33 / 4, az := 1, millisPeak := 0, millisDecay := 0,
    rand1 := 80, rand2 := 80 }

/-- A 10 G push along `x`, no key is down; `rand()` returns 85 and then 85,
which puts a new goal at `(105, 105)`. -/
def shoveInput : Input F :=
  { keys := noKeys, ax := 10, ay := 0, az := 1, millisPeak := 0, millisDecay := 0,
    rand1 := 85, rand2 := 85 }

/-- The device at rest, no key is down; `rand()` returns 85 and then 85, which
puts a new goal at `(105, 105)`. -/
def settleInput : Input F :=
  { keys := noKeys, ax := 0, ay := 0, az := 1, millisPeak := 0, millisDecay := 0,
    rand1 := 85, rand2 := 85 }

/-- The device at rest, no key is down, and `rand()` returns 100 and then 47,
which puts a new goal at `(120, 67)`. -/
def goalAtCentreInput : Input F :=
  { keys := noKeys, ax := 0, ay := 0, az := 1, millisPeak := 0, millisDecay := 0,
    rand1 := 100, rand2 := 47 }

end Defs

section Theorems

variable {F : Type} [LinearOrderedField F]

/-! ## Zoom scale -/

theorem demoCube_zoom_bounds (inp : Input F) (st : App F)
    (h : 0 ≤ st.zoomScale ∧ st.zoomScale ≤ 200) :
    0 ≤ (demoCube inp st).zoomScale ∧ (demoCube inp st).zoomScale ≤ 200 := by
  obtain ⟨h0, h1⟩ := h
  simp only [demoCube]
  split_ifs <;> constructor <;> norm_num <;> linarith

theorem runCube_zoom_bounds (inputs : List (Input F)) (st : App F)
    (h : 0 ≤ st.zoomScale ∧ st.zoomScale ≤ 200) :
    0 ≤ (runCube inputs st).zoomScale ∧ (runCube inputs st).zoomScale ≤ 200 := by
  induction inputs generalizing st with
  | nil => exact h
  | cons i is ih => exact ih (demoCube i st) (demoCube_zoom_bounds i st h)

/-- C10: from the initial zoom scale 90, after any sequence of `demoCube`
ticks, whatever keys are down in each of them (zoom in, zoom out, reset,
exit), the zoom scale lies in `[0, 200]`. -/
theorem zoomScale_always_in_range (stored : Option F) (inputs : List (Input F)) :
    0 ≤ (runCube inputs (setup (App.init stored))).zoomScale ∧
      (runCube inputs (setup (App.init stored))).zoomScale ≤ 200 := by
  apply runCube_zoom_bounds
  simp only [setup, App.init]
  constructor <;> norm_num

/-! ## The G-force peak tracker -/

theorem demoLaunch_highG_le (m : MathFns F) (inp : Input F) (st : App F)
    (hr : inp.keys 'r' = false) : st.highG ≤ (demoLaunch m inp st).highG := by
  by_cases he : exitRequested inp.keys = true
  · simp [demoLaunch, he]
  · by_cases h1 : launchForce m inp > 1.5 ∧ launchForce m inp > st.currentMax
    · by_cases h2 : launchForce m inp > st.highG
      · simp only [demoLaunch, he, hr, h1, h2, and_self, if_true, if_false, Bool.false_eq_true]
        split_ifs <;> exact le_of_lt h2
      · simp only [demoLaunch, he, hr, h1, h2, and_self, if_true, if_false, Bool.false_eq_true]
        split_ifs <;> exact le_refl _
    · simp only [demoLaunch, he, hr, h1, if_true, if_false, Bool.false_eq_true]
      split_ifs <;> exact le_refl _

theorem runLaunch_highG_le (m : MathFns F) (inputs : List (Input F)) (st : App F)
    (hr : ∀ i ∈ inputs, i.keys 'r' = false) : st.highG ≤ (runLaunch m inputs st).highG := by
  induction inputs generalizing st with
  | nil => exact le_refl _
  | cons i is ih =>
    have h1 := demoLaunch_highG_le m i st (hr i (List.mem_cons_self _ _))
    have h2 := ih (demoLaunch m i st) (fun j hj => hr j (List.mem_cons_of_mem _ hj))
    exact le_trans h1 h2

/-- C3: in a sequence of `demoLaunch` ticks in which the reset key `r` is never
down, `highG` at the end of each tick is at least `highG` at its start, and
so `highG` at the end of the sequence is at least `highG` at its start. -/
theorem highG_monotone (m : MathFns F) (st : App F) (inputs : List (Input F))
    (hr : ∀ i ∈ inputs, i.keys 'r' = false) :
    (∀ pre inp post, inputs = pre ++ inp :: post →
        (runLaunch m pre st).highG ≤ (demoLaunch m inp (runLaunch m pre st)).highG) ∧
      st.highG ≤ (runLaunch m inputs st).highG := by
  refine ⟨?_, runLaunch_highG_le m inputs st hr⟩
  intro pre inp post h
  apply demoLaunch_highG_le
  apply hr
  simp [h]

theorem demoLaunch_exit (m : MathFns F) (inp : Input F) (st : App F)
    (he : exitRequested inp.keys = true) :
    demoLaunch m inp st = { st with currentMode := AppMode.MODE_MENU } := by
  simp [demoLaunch, he]

/-- A tick whose sample is not above 1.5 G records no peak. -/
theorem demoLaunch_quiet (m : MathFns F) (inp : Input F) (st : App F)
    (he : exitRequested inp.keys = false) (hq : launchForce m inp ≤ 1.5) :
    demoLaunch m inp st =
      if (if inp.keys 'r' = true then (0 : F) else st.currentMax) < 1.5 ∨
          u32sub inp.millisDecay st.peakTime > 3000 then
        if inp.keys 'r' = true then
          { st with highG := 0, currentMax := 0, prefs := some 0 }
        else { st with currentMax := 0 }
      else st := by
  have hq1 : ¬ launchForce m inp > 1.5 := not_lt.mpr hq
  have h15 : (0 : F) < 1.5 := by norm_num
  by_cases hr : inp.keys 'r' = true
  · simp [demoLaunch, he, hq1, hr, h15]
  · simp only [demoLaunch, he, hq1, hr, false_and, if_false, Bool.false_eq_true]

theorem u32sub_add (t0 d : ℕ) (hd : d < 2 ^ 32) (a : ℕ)
    (ha : a % 2 ^ 32 = (t0 + d) % 2 ^ 32) : u32sub a t0 = d := by
  unfold u32sub
  rw [ha]
  norm_num at *
  omega

theorem demoLaunch_heldOrIdle (m : MathFns F) (t0 : ℕ) (inp : Input F) (st : App F)
    (hq : launchForce m inp ≤ 1.5) (h : HeldOrIdle t0 st) :
    HeldOrIdle t0 (demoLaunch m inp st) := by
  by_cases he : exitRequested inp.keys = true
  · rw [demoLaunch_exit m inp st he]; exact h
  · rw [demoLaunch_quiet m inp st (by simpa using he) hq]
    unfold HeldOrIdle at *
    split_ifs <;> first | exact h | exact Or.inl rfl

theorem runLaunch_heldOrIdle (m : MathFns F) (t0 : ℕ) (inputs : List (Input F)) (st : App F)
    (hq : ∀ i ∈ inputs, launchForce m i ≤ 1.5) (h : HeldOrIdle t0 st) :
    HeldOrIdle t0 (runLaunch m inputs st) := by
  induction inputs generalizing st with
  | nil => exact h
  | cons i is ih =>
    exact ih (demoLaunch m i st) (fun j hj => hq j (List.mem_cons_of_mem _ hj))
      (demoLaunch_heldOrIdle m t0 i st (hq i (List.mem_cons_self _ _)) h)

theorem demoLaunch_decays (m : MathFns F) (t0 : ℕ) (inp : Input F) (st : App F)
    (he : exitRequested inp.keys = false)
    (hq : launchForce m inp ≤ 1.5) (h : HeldOrIdle t0 st)
    (ht : inp.millisDecay % 2 ^ 32 = (t0 + 3001) % 2 ^ 32) :
    (demoLaunch m inp st).currentMax = 0 := by
  rw [demoLaunch_quiet m inp st he hq]
  have h15 : (0 : F) < 1.5 := by norm_num
  rcases h with h | ⟨_, hp⟩
  · have : (if inp.keys 'r' = true then (0 : F) else st.currentMax) < 1.5 := by
      split_ifs
      · exact h15
      · rw [h]; exact h15
    rw [if_pos (Or.inl this)]
    split_ifs <;> rfl
  · have : u32sub inp.millisDecay st.peakTime > 3000 := by
      rw [hp, u32sub_add t0 3001 (by norm_num) _ ht]
      norm_num
    rw [if_pos (Or.inr this)]
    split_ifs <;> rfl

/-- A tick inside the 3000 ms window, without a new peak and without the reset
key, keeps a held peak of 3 G. -/
theorem demoLaunch_holds (m : MathFns F) (t0 : ℕ) (inp : Input F) (st : App F)
    (hq : launchForce m inp ≤ 1.5) (hr : inp.keys 'r' = false)
    (hw : u32sub inp.millisDecay t0 ≤ 3000)
    (h : st.currentMax = 3 ∧ st.peakTime = t0) :
    (demoLaunch m inp st).currentMax = 3 ∧ (demoLaunch m inp st).peakTime = t0 := by
  by_cases he : exitRequested inp.keys = true
  · rw [demoLaunch_exit m inp st he]; exact h
  · rw [demoLaunch_quiet m inp st (by simpa using he) hq]
    have h3 : ¬ ((3 : F) < 1.5) := by norm_num
    have hw2 : ¬ (u32sub inp.millisDecay t0 > 3000) := not_lt.mpr hw
    simp only [hr, Bool.false_eq_true, if_false, h.1, h.2, h3, hw2, or_self, and_self]

theorem runLaunch_holds (m : MathFns F) (t0 : ℕ) (inputs : List (Input F)) (st : App F)
    (hq : ∀ i ∈ inputs, launchForce m i ≤ 1.5)
    (hw : ∀ i ∈ inputs, i.keys 'r' = false ∧ u32sub i.millisDecay t0 ≤ 3000)
    (h : st.currentMax = 3 ∧ st.peakTime = t0) :
    (runLaunch m inputs st).currentMax = 3 ∧ (runLaunch m inputs st).peakTime = t0 := by
  induction inputs generalizing st with
  | nil => exact h
  | cons i is ih =>
    have hi := hw i (List.mem_cons_self _ _)
    exact ih (demoLaunch m i st) (fun j hj => hq j (List.mem_cons_of_mem _ hj))
      (fun j hj => hw j (List.mem_cons_of_mem _ hj))
      (demoLaunch_holds m t0 i st (hq i (List.mem_cons_self _ _)) hi.1 hi.2 h)

/-- A tick that reads a new peak and does not reset holds that peak. -/
theorem demoLaunch_new_peak (m : MathFns F) (inp : Input F) (st : App F)
    (he : exitRequested inp.keys = false) (hr : inp.keys 'r' = false)
    (h1 : launchForce m inp > 1.5) (h2 : launchForce m inp > st.currentMax)
    (hw : u32sub inp.millisDecay (inp.millisPeak % 2 ^ 32) ≤ 3000) :
    (demoLaunch m inp st).currentMax = launchForce m inp := by
  have h3 : ¬ (launchForce m inp < 1.5) := not_lt.mpr (le_of_lt h1)
  have h4 : ¬ (u32sub inp.millisDecay (inp.millisPeak % 2 ^ 32) > 3000) := not_lt.mpr hw
  by_cases h5 : launchForce m inp > st.highG
  · simp only [demoLaunch, he, hr, h1, h2, h3, h4, h5, and_self, or_self, if_true, if_false,
      Bool.false_eq_true]
  · simp only [demoLaunch, he, hr, h1, h2, h3, h4, h5, and_self, or_self, if_true, if_false,
      Bool.false_eq_true]

/-- C5, as amended: let `currentMax = 3.0` with `peakTime = t0`, and let no
sample have a force above 1.5 G in the ticks `mid` that follow nor in the tick
`fin` itself.  If `fin` reads `millis() = t0 + 3001` (modulo `2^32`) then
`currentMax` is `0` after it.  If instead `fin` reads `t0 + 3000`, the ticks
before it were inside the window, and the reset key was not used, then
`currentMax` is still `3.0` after it. -/
theorem peak_decay (m : MathFns F) (st : App F) (t0 : ℕ) (mid : List (Input F))
    (fin : Input F) (hmax : st.currentMax = 3) (hpk : st.peakTime = t0)
    (hmid : ∀ i ∈ mid, launchForce m i ≤ 1.5) (hfin : launchForce m fin ≤ 1.5)
    (hexit : exitRequested fin.keys = false) :
    (fin.millisDecay % 2 ^ 32 = (t0 + 3001) % 2 ^ 32 →
        (demoLaunch m fin (runLaunch m mid st)).currentMax = 0) ∧
      (fin.millisDecay % 2 ^ 32 = (t0 + 3000) % 2 ^ 32 → fin.keys 'r' = false →
        (∀ i ∈ mid, i.keys 'r' = false ∧ u32sub i.millisDecay t0 ≤ 3000) →
        (demoLaunch m fin (runLaunch m mid st)).currentMax = 3) := by
  constructor
  · intro ht
    exact demoLaunch_decays m t0 fin _ hexit hfin
      (runLaunch_heldOrIdle m t0 mid st hmid (Or.inr ⟨hmax, hpk⟩)) ht
  · intro ht hr hw
    have h1 := runLaunch_holds m t0 mid st hmid hw ⟨hmax, hpk⟩
    have h2 : u32sub fin.millisDecay t0 ≤ 3000 := by
      rw [u32sub_add t0 3000 (by norm_num) _ ht]
    exact (demoLaunch_holds m t0 fin _ hfin hr h2 h1).1

theorem demoLaunch_store (m : MathFns F) (inp : Input F) (st : App F)
    (h : getFloat st.prefs 0 = st.highG) :
    getFloat (demoLaunch m inp st).prefs 0 = (demoLaunch m inp st).highG := by
  by_cases he : exitRequested inp.keys = true
  · rw [demoLaunch_exit m inp st he]; exact h
  · by_cases hr : inp.keys 'r' = true
    · simp only [demoLaunch, he, hr, if_true, if_false, Bool.false_eq_true]
      split_ifs <;> rfl
    · by_cases h1 : launchForce m inp > 1.5 ∧ launchForce m inp > st.currentMax
      · by_cases h2 : launchForce m inp > st.highG
        · simp only [demoLaunch, he, hr, h1, h2, and_self, if_true, if_false, Bool.false_eq_true]
          split_ifs <;> rfl
        · simp only [demoLaunch, he, hr, h1, h2, and_self, if_true, if_false, Bool.false_eq_true]
          split_ifs <;> exact h
      · simp only [demoLaunch, he, hr, h1, if_true, if_false, Bool.false_eq_true]
        split_ifs <;> exact h

theorem demoLaunch_reset (m : MathFns F) (inp : Input F) (st : App F)
    (he : exitRequested inp.keys = false) (hr : inp.keys 'r' = true) :
    (demoLaunch m inp st).highG = 0 ∧ (demoLaunch m inp st).currentMax = 0 ∧
      (demoLaunch m inp st).prefs = some 0 := by
  have h15 : (0 : F) < 1.5 := by norm_num
  simp [demoLaunch, he, hr, h15]

/-- C4: right after `setup` the value stored under `"highG"` (read with default
`0.0`) equals `highG`; a `demoLaunch` tick keeps them equal, whatever its
input, so that `setup` run again after the tick reloads the same `highG`; and
a tick with the reset key `r` down (and no exit) leaves `highG`, `currentMax`
and the stored value all equal to `0`. -/
theorem highG_durable (m : MathFns F) (inp : Input F) (st : App F) :
    getFloat (setup st).prefs 0 = (setup st).highG ∧
      (getFloat st.prefs 0 = st.highG →
        getFloat (demoLaunch m inp st).prefs 0 = (demoLaunch m inp st).highG ∧
          (setup (demoLaunch m inp st)).highG = (demoLaunch m inp st).highG) ∧
      (exitRequested inp.keys = false → inp.keys 'r' = true →
        (demoLaunch m inp st).highG = 0 ∧ (demoLaunch m inp st).currentMax = 0 ∧
          (demoLaunch m inp st).prefs = some 0) := by
  refine ⟨rfl, ?_, demoLaunch_reset m inp st⟩
  intro h
  have h1 := demoLaunch_store m inp st h
  exact ⟨h1, h1⟩

/-! ## The tilt game -/

theorem constrain_bounds (amt low high : F) (h : low ≤ high) :
    low ≤ constrain amt low high ∧ constrain amt low high ≤ high := by
  unfold constrain
  split_ifs with h1 h2
  · exact ⟨le_refl _, h⟩
  · exact ⟨h, le_refl _⟩
  · exact ⟨not_lt.mp h1, not_lt.mp h2⟩

theorem constrain_of_mem (amt low high : F) (h1 : low ≤ amt) (h2 : amt ≤ high) :
    constrain amt low high = amt := by
  unfold constrain
  rw [if_neg (not_lt.mpr h1), if_neg (not_lt.mpr h2)]

theorem demoTiltGame_exit (inp : Input F) (st : App F) (he : exitRequested inp.keys = true) :
    demoTiltGame inp st =
      { st with currentMode := AppMode.MODE_MENU, firstRun := true, goalInit := false } := by
  simp [demoTiltGame, he]

/-- The ball after a tick that does not exit: the start position (the centre
on a first run) moved by the tilt and clamped. -/
theorem demoTiltGame_ball (inp : Input F) (st : App F) (he : exitRequested inp.keys = false) :
    (demoTiltGame inp st).px =
        constrain (if st.isBubbleMode = true then
            (if st.firstRun = true then 120 else st.px) + inp.ax * 4
          else (if st.firstRun = true then 120 else st.px) - inp.ax * 4) 10 230 ∧
      (demoTiltGame inp st).py =
        constrain (if st.isBubbleMode = true then
            (if st.firstRun = true then 67 else st.py) + -inp.ay * 4
          else (if st.firstRun = true then 67 else st.py) - -inp.ay * 4) 10 125 := by
  simp only [demoTiltGame, he, Bool.false_eq_true, if_false]
  split_ifs <;> exact ⟨rfl, rfl⟩

/-- The goal after a tick that does not exit: kept when active, else placed. -/
theorem demoTiltGame_goal (inp : Input F) (st : App F) (he : exitRequested inp.keys = false) :
    (demoTiltGame inp st).gx_g =
        (if st.goalInit = true then st.gx_g else 20 + ((inp.rand1 % 200 : ℕ) : ℤ)) ∧
      (demoTiltGame inp st).gy_g =
        (if st.goalInit = true then st.gy_g else 20 + ((inp.rand2 % 100 : ℕ) : ℤ)) := by
  simp only [demoTiltGame, he, Bool.false_eq_true, if_false]
  split_ifs <;> first | exact ⟨rfl, rfl⟩ | simp_all

/-- The flags after a tick that does not exit, in terms of the collision test
on the ball and goal the tick leaves behind. -/
theorem demoTiltGame_flags (inp : Input F) (st : App F) (he : exitRequested inp.keys = false) :
    (demoTiltGame inp st).firstRun = false ∧
      (((demoTiltGame inp st).px - ((demoTiltGame inp st).gx_g : F)) ^ 2 +
          ((demoTiltGame inp st).py - ((demoTiltGame inp st).gy_g : F)) ^ 2 < 144 →
        (demoTiltGame inp st).isBubbleMode = !st.isBubbleMode ∧
          (demoTiltGame inp st).goalInit = false) ∧
      (¬ ((demoTiltGame inp st).px - ((demoTiltGame inp st).gx_g : F)) ^ 2 +
          ((demoTiltGame inp st).py - ((demoTiltGame inp st).gy_g : F)) ^ 2 < 144 →
        (demoTiltGame inp st).isBubbleMode = st.isBubbleMode ∧
          (demoTiltGame inp st).goalInit = true) := by
  simp only [demoTiltGame, he, Bool.false_eq_true, if_false]
  split_ifs <;> simp_all

theorem demoTiltGame_bounds_of_run (inp : Input F) (st : App F)
    (he : exitRequested inp.keys = false) :
    10 ≤ (demoTiltGame inp st).px ∧ (demoTiltGame inp st).px ≤ 230 ∧
      10 ≤ (demoTiltGame inp st).py ∧ (demoTiltGame inp st).py ≤ 125 := by
  obtain ⟨hx, hy⟩ := demoTiltGame_ball inp st he
  rw [hx, hy]
  exact ⟨(constrain_bounds _ 10 230 (by norm_num)).1, (constrain_bounds _ 10 230 (by norm_num)).2,
    (constrain_bounds _ 10 125 (by norm_num)).1, (constrain_bounds _ 10 125 (by norm_num)).2⟩

theorem demoTiltGame_bounds_kept (inp : Input F) (st : App F)
    (h : 10 ≤ st.px ∧ st.px ≤ 230 ∧ 10 ≤ st.py ∧ st.py ≤ 125) :
    10 ≤ (demoTiltGame inp st).px ∧ (demoTiltGame inp st).px ≤ 230 ∧
      10 ≤ (demoTiltGame inp st).py ∧ (demoTiltGame inp st).py ≤ 125 := by
  by_cases he : exitRequested inp.keys = true
  · rw [demoTiltGame_exit inp st he]; exact h
  · exact demoTiltGame_bounds_of_run inp st (by simpa using he)

theorem runTilt_bounds (inputs : List (Input F)) (st : App F)
    (h : (∃ i ∈ inputs, exitRequested i.keys = false) ∨
      (10 ≤ st.px ∧ st.px ≤ 230 ∧ 10 ≤ st.py ∧ st.py ≤ 125)) :
    10 ≤ (runTilt inputs st).px ∧ (runTilt inputs st).px ≤ 230 ∧
      10 ≤ (runTilt inputs st).py ∧ (runTilt inputs st).py ≤ 125 := by
  induction inputs generalizing st with
  | nil =>
    rcases h with ⟨i, hi, _⟩ | h
    · exact absurd hi (List.not_mem_nil i)
    · exact h
  | cons j js ih =>
    apply ih (demoTiltGame j st)
    rcases h with ⟨i, hi, hie⟩ | h
    · rcases List.mem_cons.mp hi with rfl | hi
      · exact Or.inr (demoTiltGame_bounds_of_run i st hie)
      · exact Or.inl ⟨i, hi, hie⟩
    · exact Or.inr (demoTiltGame_bounds_kept j st h)

theorem runTilt_all_exit (inputs : List (Input F)) (st : App F)
    (h : ∀ i ∈ inputs, exitRequested i.keys = true) :
    (runTilt inputs st).px = st.px ∧ (runTilt inputs st).py = st.py := by
  induction inputs generalizing st with
  | nil => exact ⟨rfl, rfl⟩
  | cons j js ih =>
    have h1 := ih (demoTiltGame j st) (fun i hi => h i (List.mem_cons_of_mem _ hi))
    have h2 : (demoTiltGame j st).px = st.px ∧ (demoTiltGame j st).py = st.py := by
      rw [demoTiltGame_exit j st (h j (List.mem_cons_self _ _))]
      exact ⟨rfl, rfl⟩
    exact ⟨h1.1.trans h2.1, h1.2.trans h2.2⟩

/-- C7, as amended: from the program's initial state, after any sequence of
`demoTiltGame` ticks of which at least one did not exit, whatever the
accelerometer samples, `10 ≤ px ≤ 230` and `10 ≤ py ≤ 125`; after a sequence
of ticks that all exit, the ball is still at `(0, 0)`. -/
theorem tilt_ball_in_bounds (stored : Option F) (inputs : List (Input F)) :
    ((∃ i ∈ inputs, exitRequested i.keys = false) →
        10 ≤ (runTilt inputs (setup (App.init stored))).px ∧
          (runTilt inputs (setup (App.init stored))).px ≤ 230 ∧
          10 ≤ (runTilt inputs (setup (App.init stored))).py ∧
          (runTilt inputs (setup (App.init stored))).py ≤ 125) ∧
      ((∀ i ∈ inputs, exitRequested i.keys = true) →
        (runTilt inputs (setup (App.init stored))).px = 0 ∧
          (runTilt inputs (setup (App.init stored))).py = 0) :=
  ⟨fun h => runTilt_bounds inputs _ (Or.inl h),
    fun h => runTilt_all_exit inputs (setup (App.init stored)) h⟩

/-- After any tick, a goal that is active is at squared distance 144 or more
from the ball. -/
theorem demoTiltGame_active_goal_far (inp : Input F) (st : App F) :
    (demoTiltGame inp st).goalInit = true →
      ¬ ((demoTiltGame inp st).px - ((demoTiltGame inp st).gx_g : F)) ^ 2 +
        ((demoTiltGame inp st).py - ((demoTiltGame inp st).gy_g : F)) ^ 2 < 144 := by
  by_cases he : exitRequested inp.keys = true
  · rw [demoTiltGame_exit inp st he]
    intro hg
    exact absurd hg (by simp)
  · obtain ⟨-, hhit, -⟩ := demoTiltGame_flags inp st (by simpa using he)
    intro hg hc
    have := (hhit hc).2
    rw [hg] at this
    exact Bool.noConfusion this

theorem runTilt_active_goal_far (inputs : List (Input F)) (st : App F)
    (h : st.goalInit = true →
      ¬ (st.px - (st.gx_g : F)) ^ 2 + (st.py - (st.gy_g : F)) ^ 2 < 144) :
    (runTilt inputs st).goalInit = true →
      ¬ ((runTilt inputs st).px - ((runTilt inputs st).gx_g : F)) ^ 2 +
        ((runTilt inputs st).py - ((runTilt inputs st).gy_g : F)) ^ 2 < 144 := by
  induction inputs generalizing st with
  | nil => exact h
  | cons j js ih => exact ih (demoTiltGame j st) (demoTiltGame_active_goal_far j st)

/-- C8, as amended: in a tick that does not exit, starts with the ball at
`(100, 100)` (not a first run) and no active goal, and in which `rand()`
places the goal at `(105, 105)`, `isBubbleMode` is flipped and `goalInit` is
cleared exactly when the ball, after the move and the clamp of that tick, is
still within squared distance 144 of the goal; this is so for every sample with
`|ax| ≤ 0.75` and `|ay| ≤ 0.75`.  No run from the initial state reaches a state
in which a goal is already active within squared distance 144 of the ball. -/
theorem tilt_collision (stored : Option F) (inputs : List (Input F)) (inp : Input F)
    (st : App F) (hpx : st.px = 100) (hpy : st.py = 100) (hfirst : st.firstRun = false)
    (hgoal : st.goalInit = false) (hr1 : inp.rand1 % 200 = 85) (hr2 : inp.rand2 % 100 = 85)
    (he : exitRequested inp.keys = false) :
    (demoTiltGame inp st).gx_g = 105 ∧ (demoTiltGame inp st).gy_g = 105 ∧
      (((demoTiltGame inp st).px - 105) ^ 2 + ((demoTiltGame inp st).py - 105) ^ 2 < 144 ↔
        ((demoTiltGame inp st).isBubbleMode = !st.isBubbleMode ∧
          (demoTiltGame inp st).goalInit = false)) ∧
      (|inp.ax| ≤ 0.75 → |inp.ay| ≤ 0.75 →
        ((demoTiltGame inp st).isBubbleMode = !st.isBubbleMode ∧
          (demoTiltGame inp st).goalInit = false)) ∧
      ((runTilt inputs (setup (App.init stored))).goalInit = true →
        ¬ ((runTilt inputs (setup (App.init stored))).px -
              ((runTilt inputs (setup (App.init stored))).gx_g : F)) ^ 2 +
            ((runTilt inputs (setup (App.init stored))).py -
              ((runTilt inputs (setup (App.init stored))).gy_g : F)) ^ 2 < 144) := by
  obtain ⟨hx, hy⟩ := demoTiltGame_ball inp st he
  obtain ⟨hgx2, hgy2⟩ := demoTiltGame_goal inp st he
  obtain ⟨-, hhit, hmiss⟩ := demoTiltGame_flags inp st he
  simp only [hgoal, hr1, hr2, Bool.false_eq_true, if_false] at hgx2 hgy2
  have hgx3 : (demoTiltGame inp st).gx_g = 105 := by rw [hgx2]; norm_num
  have hgy3 : (demoTiltGame inp st).gy_g = 105 := by rw [hgy2]; norm_num
  rw [hgx3, hgy3] at hhit hmiss
  simp only [Int.cast_ofNat] at hhit hmiss
  have hiff : ((demoTiltGame inp st).px - 105) ^ 2 + ((demoTiltGame inp st).py - 105) ^ 2 < 144 ↔
      ((demoTiltGame inp st).isBubbleMode = !st.isBubbleMode ∧
        (demoTiltGame inp st).goalInit = false) := by
    constructor
    · exact hhit
    · intro hflip
      by_contra hc
      have := (hmiss hc).2
      rw [hflip.2] at this
      exact Bool.noConfusion this
  refine ⟨hgx3, hgy3, hiff, ?_, ?_⟩
  · intro hax hay
    apply hiff.mp
    rw [abs_le] at hax hay
    obtain ⟨hax1, hax2⟩ := hax
    obtain ⟨hay1, hay2⟩ := hay
    norm_num at hax1 hax2 hay1 hay2
    simp only [hfirst, hpx, hpy, Bool.false_eq_true, if_false] at hx hy
    have hx' : 97 ≤ (demoTiltGame inp st).px ∧ (demoTiltGame inp st).px ≤ 103 := by
      rw [hx]
      split_ifs
      · rw [constrain_of_mem _ _ _ (by linarith) (by linarith)]
        constructor <;> linarith
      · rw [constrain_of_mem _ _ _ (by linarith) (by linarith)]
        constructor <;> linarith
    have hy' : 97 ≤ (demoTiltGame inp st).py ∧ (demoTiltGame inp st).py ≤ 103 := by
      rw [hy]
      split_ifs
      · rw [constrain_of_mem _ _ _ (by linarith) (by linarith)]
        constructor <;> linarith
      · rw [constrain_of_mem _ _ _ (by linarith) (by linarith)]
        constructor <;> linarith
    nlinarith [hx'.1, hx'.2, hy'.1, hy'.2]
  · apply runTilt_active_goal_far
    intro hg
    have hinit : (setup (App.init stored) : App F).goalInit = false := rfl
    rw [hinit] at hg
    exact Bool.noConfusion hg

/-- C9, as amended: a tick in which exit is requested sets the mode to
`MODE_MENU`, sets `firstRun`, clears `goalInit` and keeps `isBubbleMode` as it
was; the next tick that does not exit then moves the ball from the centre
`(120, 67)` and places a new goal in `[20, 219] × [20, 119]`. -/
theorem tilt_reentry (exitInp inp : Input F) (st : App F)
    (hexit : exitRequested exitInp.keys = true) (hrun : exitRequested inp.keys = false) :
    (demoTiltGame exitInp st).currentMode = AppMode.MODE_MENU ∧
      (demoTiltGame exitInp st).firstRun = true ∧
      (demoTiltGame exitInp st).goalInit = false ∧
      (demoTiltGame exitInp st).isBubbleMode = st.isBubbleMode ∧
      (demoTiltGame inp (demoTiltGame exitInp st)).px =
        constrain (if st.isBubbleMode = true then 120 + inp.ax * 4 else 120 - inp.ax * 4) 10 230 ∧
      (demoTiltGame inp (demoTiltGame exitInp st)).py =
        constrain (if st.isBubbleMode = true then 67 + -inp.ay * 4 else 67 - -inp.ay * 4) 10 125 ∧
      (demoTiltGame inp (demoTiltGame exitInp st)).gx_g = 20 + ((inp.rand1 % 200 : ℕ) : ℤ) ∧
      (demoTiltGame inp (demoTiltGame exitInp st)).gy_g = 20 + ((inp.rand2 % 100 : ℕ) : ℤ) ∧
      20 ≤ (demoTiltGame inp (demoTiltGame exitInp st)).gx_g ∧
      (demoTiltGame inp (demoTiltGame exitInp st)).gx_g ≤ 219 ∧
      20 ≤ (demoTiltGame inp (demoTiltGame exitInp st)).gy_g ∧
      (demoTiltGame inp (demoTiltGame exitInp st)).gy_g ≤ 119 := by
  obtain ⟨hx, hy⟩ := demoTiltGame_ball inp (demoTiltGame exitInp st) hrun
  obtain ⟨hgx, hgy⟩ := demoTiltGame_goal inp (demoTiltGame exitInp st) hrun
  rw [hx, hy, hgx, hgy, demoTiltGame_exit exitInp st hexit]
  simp only [if_true, Bool.false_eq_true, if_false, true_and]
  have h1 : inp.rand1 % 200 < 200 := Nat.mod_lt _ (by norm_num)
  have h2 : inp.rand2 % 100 < 100 := Nat.mod_lt _ (by norm_num)
  refine ⟨?_, ?_, ?_, ?_⟩ <;> omega

/-! ## The graph ring buffer -/

theorem runGraph_concat (l : List (Input F)) (a : Input F) (st : App F) :
    runGraph (l ++ [a]) st = demoGraph a (runGraph l st) := by
  simp [runGraph, List.foldl_append]

theorem demoGraph_run (inp : Input F) (st : App F) (he : exitRequested inp.keys = false) :
    demoGraph inp st =
      { st with bX := st.bX.set st.idx (inp.ax * 40),
                bY := st.bY.set st.idx (inp.ay * 40),
                bZ := st.bZ.set st.idx (inp.az * 40),
                idx := (st.idx + 1) % 240 } := by
  simp [demoGraph, he]

/-- One write at the cursor of a 240-slot buffer that holds the last samples of
a history of length `n`. -/
theorem ring_write {α : Type} (buf : List α) (n : ℕ) (v : α) (f : ℕ → Option α)
    (hlen : buf.length = 240)
    (h : ∀ t, t < n → n ≤ t + 240 → buf[t % 240]? = f t) :
    ∀ t, t < n + 1 → n + 1 ≤ t + 240 →
      (buf.set (n % 240) v)[t % 240]? = if t = n then some v else f t := by
  intro t ht1 ht2
  by_cases htn : t = n
  · subst htn
    rw [if_pos rfl]
    apply List.getElem?_set_self
    rw [hlen]
    exact Nat.mod_lt _ (by norm_num)
  · rw [if_neg htn]
    have hne : n % 240 ≠ t % 240 := by omega
    rw [List.getElem?_set_ne hne]
    exact h t (by omega) (by omega)

theorem graphInv_axis (proj : Input F → F) (l : List (Input F)) (a : Input F) (buf : List F)
    (hlen : buf.length = 240)
    (h : ∀ t, t < l.length → l.length ≤ t + 240 →
      buf[t % 240]? = (l[t]?).map (fun i => proj i * 40)) :
    ∀ t, t < (l ++ [a]).length → (l ++ [a]).length ≤ t + 240 →
      (buf.set (l.length % 240) (proj a * 40))[t % 240]? =
        ((l ++ [a])[t]?).map (fun i => proj i * 40) := by
  intro t ht1 ht2
  rw [List.length_append, List.length_singleton] at ht1 ht2
  rw [ring_write buf l.length (proj a * 40) _ hlen h t ht1 ht2]
  by_cases htn : t = l.length
  · subst htn
    rw [if_pos rfl, List.getElem?_concat_length]
    rfl
  · rw [if_neg htn, List.getElem?_append_left (by omega)]

theorem runGraph_inv (stored : Option F) (l : List (Input F))
    (hne : ∀ i ∈ l, exitRequested i.keys = false) :
    GraphInv l (runGraph l (setup (App.init stored))) := by
  induction l using List.reverseRecOn with
  | nil =>
    refine ⟨rfl, ?_, ?_, ?_, ?_, ?_, ?_⟩
    · exact List.length_replicate 240 (0 : F)
    · exact List.length_replicate 240 (0 : F)
    · exact List.length_replicate 240 (0 : F)
    · intro t ht; exact absurd ht (Nat.not_lt_zero t)
    · intro t ht; exact absurd ht (Nat.not_lt_zero t)
    · intro t ht; exact absurd ht (Nat.not_lt_zero t)
  | append_singleton l a ih =>
    have hl : ∀ i ∈ l, exitRequested i.keys = false :=
      fun i hi => hne i (List.mem_append_left _ hi)
    have ha : exitRequested a.keys = false :=
      hne a (List.mem_append_right _ (List.mem_singleton_self a))
    obtain ⟨hidx, hX, hY, hZ, hbX, hbY, hbZ⟩ := ih hl
    rw [runGraph_concat, demoGraph_run a _ ha]
    refine ⟨?_, ?_, ?_, ?_, ?_, ?_, ?_⟩
    · show ((runGraph l (setup (App.init stored))).idx + 1) % 240 = (l ++ [a]).length % 240
      rw [hidx, List.length_append, List.length_singleton]
      omega
    · show (List.set _ _ _).length = 240
      rw [List.length_set]; exact hX
    · show (List.set _ _ _).length = 240
      rw [List.length_set]; exact hY
    · show (List.set _ _ _).length = 240
      rw [List.length_set]; exact hZ
    · show ∀ t, t < (l ++ [a]).length → (l ++ [a]).length ≤ t + 240 →
        (List.set _ (runGraph l (setup (App.init stored))).idx (a.ax * 40))[t % 240]? = _
      rw [hidx]
      exact graphInv_axis (fun i => i.ax) l a _ hX hbX
    · show ∀ t, t < (l ++ [a]).length → (l ++ [a]).length ≤ t + 240 →
        (List.set _ (runGraph l (setup (App.init stored))).idx (a.ay * 40))[t % 240]? = _
      rw [hidx]
      exact graphInv_axis (fun i => i.ay) l a _ hY hbY
    · show ∀ t, t < (l ++ [a]).length → (l ++ [a]).length ≤ t + 240 →
        (List.set _ (runGraph l (setup (App.init stored))).idx (a.az * 40))[t % 240]? = _
      rw [hidx]
      exact graphInv_axis (fun i => i.az) l a _ hZ hbZ

/-- C6: after `n ≥ 240` `demoGraph` ticks that do not exit, run from the
initial state on the samples `inputs`, the cursor `idx` is `n mod 240`, each of
the three buffers still has 240 slots, and reading a buffer at
`(idx + k) mod 240` for `k = 0 .. 239` gives the samples `n - 240 + k` (counted
from 0) of its axis, each multiplied by 40: the last 240 samples, oldest
first. -/
theorem graph_ring_buffer (stored : Option F) (inputs : List (Input F))
    (hne : ∀ i ∈ inputs, exitRequested i.keys = false) (hn : 240 ≤ inputs.length) :
    (runGraph inputs (setup (App.init stored))).idx = inputs.length % 240 ∧
      (runGraph inputs (setup (App.init stored))).bX.length = 240 ∧
      (runGraph inputs (setup (App.init stored))).bY.length = 240 ∧
      (runGraph inputs (setup (App.init stored))).bZ.length = 240 ∧
      ∀ k, k < 240 →
        (runGraph inputs (setup (App.init stored))).bX[
            ((runGraph inputs (setup (App.init stored))).idx + k) % 240]? =
          (inputs[inputs.length - 240 + k]?).map (fun i => i.ax * 40) ∧
        (runGraph inputs (setup (App.init stored))).bY[
            ((runGraph inputs (setup (App.init stored))).idx + k) % 240]? =
          (inputs[inputs.length - 240 + k]?).map (fun i => i.ay * 40) ∧
        (runGraph inputs (setup (App.init stored))).bZ[
            ((runGraph inputs (setup (App.init stored))).idx + k) % 240]? =
          (inputs[inputs.length - 240 + k]?).map (fun i => i.az * 40) ∧
        inputs.length - 240 + k < inputs.length := by
  obtain ⟨hidx, hX, hY, hZ, hbX, hbY, hbZ⟩ := runGraph_inv stored inputs hne
  refine ⟨hidx, hX, hY, hZ, ?_⟩
  intro k hk
  have hmod : (inputs.length % 240 + k) % 240 = (inputs.length - 240 + k) % 240 := by omega
  rw [hidx, hmod]
  exact ⟨hbX _ (by omega) (by omega), hbY _ (by omega) (by omega),
    hbZ _ (by omega) (by omega), by omega⟩

/-! ## The cube projection -/

theorem onlyR_no_exit : exitRequested onlyR = false := by decide

theorem restInputAt_force (t : ℕ) :
    launchForce ⟨Real.sqrt, fun y x => Complex.arg ⟨x, y⟩, Real.cos, Real.sin⟩
      (restInputAt t : Input ℝ) ≤ 1.5 := by
  simp only [launchForce, restInputAt, mul_zero, mul_one, zero_add, Real.sqrt_one]
  norm_num

/-- A run of the monotonicity theorem: a 4 G spike while 3 G is the record. -/
theorem highG_monotone_witness :
    (∀ i ∈ [(spikeInput : Input ℝ)], i.keys 'r' = false) ∧
      (heldState : App ℝ).highG ≤
        (runLaunch ⟨Real.sqrt, fun y x => Complex.arg ⟨x, y⟩, Real.cos, Real.sin⟩
          [spikeInput] heldState).highG :=
  ⟨by intro i hi; rw [List.mem_singleton.mp hi]; rfl,
    (highG_monotone _ heldState [spikeInput]
      (by intro i hi; rw [List.mem_singleton.mp hi]; rfl)).2⟩

/-- A run of the durability theorem on a freshly started device: the reset
key, and a 4 G spike. -/
theorem highG_durable_witness :
    getFloat (setup (App.init (some 3) : App ℝ)).prefs 0 = (setup (App.init (some 3))).highG ∧
      exitRequested (resetInput : Input ℝ).keys = false ∧
      (resetInput : Input ℝ).keys 'r' = true ∧
      (demoLaunch ⟨Real.sqrt, fun y x => Complex.arg ⟨x, y⟩, Real.cos, Real.sin⟩ resetInput
        (setup (App.init (some 3)))).prefs = some 0 ∧
      getFloat (demoLaunch ⟨Real.sqrt, fun y x => Complex.arg ⟨x, y⟩, Real.cos, Real.sin⟩
          spikeInput (setup (App.init (some 3)))).prefs 0 =
        (demoLaunch ⟨Real.sqrt, fun y x => Complex.arg ⟨x, y⟩, Real.cos, Real.sin⟩
          spikeInput (setup (App.init (some 3)))).highG :=
  ⟨rfl, onlyR_no_exit, rfl,
    ((highG_durable _ resetInput (setup (App.init (some 3)))).2.2 onlyR_no_exit rfl).2.2,
    ((highG_durable _ spikeInput (setup (App.init (some 3)))).2.1 rfl).1⟩

/-- A 3 G peak is held since `t0 = 0`; the device rests in the tick at
`millis() = 1000`; the tick at `millis() = 3001` reads a 4 G sample:
`currentMax` is `4` after it, not `0`. -/
theorem peak_decay_counterexample :
    (heldState : App ℝ).currentMax = 3 ∧ (heldState : App ℝ).peakTime = 0 ∧
      (∀ i ∈ [(restInputAt 1000 : Input ℝ)],
        launchForce ⟨Real.sqrt, fun y x => Complex.arg ⟨x, y⟩, Real.cos, Real.sin⟩ i ≤ 1.5) ∧
      exitRequested (spikeInput : Input ℝ).keys = false ∧
      (spikeInput : Input ℝ).millisPeak = 0 + 3001 ∧
      (spikeInput : Input ℝ).millisDecay = 0 + 3001 ∧
      (demoLaunch ⟨Real.sqrt, fun y x => Complex.arg ⟨x, y⟩, Real.cos, Real.sin⟩ spikeInput
        (runLaunch ⟨Real.sqrt, fun y x => Complex.arg ⟨x, y⟩, Real.cos, Real.sin⟩
          [restInputAt 1000] heldState)).currentMax = 4 ∧
      (demoLaunch ⟨Real.sqrt, fun y x => Complex.arg ⟨x, y⟩, Real.cos, Real.sin⟩ spikeInput
        (runLaunch ⟨Real.sqrt, fun y x => Complex.arg ⟨x, y⟩, Real.cos, Real.sin⟩
          [restInputAt 1000] heldState)).currentMax ≠ 0 := by
  have hf : launchForce ⟨Real.sqrt, fun y x => Complex.arg ⟨x, y⟩, Real.cos, Real.sin⟩
      (spikeInput : Input ℝ) = 4 := by
    simp only [launchForce, spikeInput, mul_zero, zero_add]
    rw [Real.sqrt_mul_self (by norm_num)]
  have hq : ∀ i ∈ [(restInputAt 1000 : Input ℝ)],
      launchForce ⟨Real.sqrt, fun y x => Complex.arg ⟨x, y⟩, Real.cos, Real.sin⟩ i ≤ 1.5 := by
    intro i hi
    rw [List.mem_singleton.mp hi]
    exact restInputAt_force 1000
  have hmid := runLaunch_holds ⟨Real.sqrt, fun y x => Complex.arg ⟨x, y⟩, Real.cos, Real.sin⟩
    0 [restInputAt 1000] (heldState : App ℝ) hq
    (by intro i hi; rw [List.mem_singleton.mp hi]; exact ⟨rfl, by decide⟩) ⟨rfl, rfl⟩
  have h4 := demoLaunch_new_peak
    ⟨Real.sqrt, fun y x => Complex.arg ⟨x, y⟩, Real.cos, Real.sin⟩ (spikeInput : Input ℝ)
    (runLaunch ⟨Real.sqrt, fun y x => Complex.arg ⟨x, y⟩, Real.cos, Real.sin⟩
      [restInputAt 1000] heldState) rfl rfl
    (by rw [hf]; norm_num) (by rw [hf, hmid.1]; norm_num) (by decide)
  rw [hf] at h4
  refine ⟨rfl, rfl, hq, rfl, rfl, rfl, h4, ?_⟩
  rw [h4]
  norm_num

/-- A run of the decay theorem: the device rests at `millis() = 1000`; the
tick at 3001 drops the peak, a tick at 3000 keeps it. -/
theorem peak_decay_witness :
    (demoLaunch ⟨Real.sqrt, fun y x => Complex.arg ⟨x, y⟩, Real.cos, Real.sin⟩
        (restInputAt 3001)
        (runLaunch ⟨Real.sqrt, fun y x => Complex.arg ⟨x, y⟩, Real.cos, Real.sin⟩
          [restInputAt 1000] (heldState : App ℝ))).currentMax = 0 ∧
      (demoLaunch ⟨Real.sqrt, fun y x => Complex.arg ⟨x, y⟩, Real.cos, Real.sin⟩
        (restInputAt 3000)
        (runLaunch ⟨Real.sqrt, fun y x => Complex.arg ⟨x, y⟩, Real.cos, Real.sin⟩
          [restInputAt 1000] (heldState : App ℝ))).currentMax = 3 :=
  ⟨(peak_decay _ heldState 0 [restInputAt 1000] (restInputAt 3001) rfl rfl
      (by intro i hi; rw [List.mem_singleton.mp hi]; exact restInputAt_force 1000)
      (restInputAt_force 3001) rfl).1 rfl,
    (peak_decay _ heldState 0 [restInputAt 1000] (restInputAt 3000) rfl rfl
      (by intro i hi; rw [List.mem_singleton.mp hi]; exact restInputAt_force 1000)
      (restInputAt_force 3000) rfl).2 rfl rfl
      (by intro i hi; rw [List.mem_singleton.mp hi]; exact ⟨rfl, by decide⟩)⟩

/-- A run of the ring buffer theorem on 241 ticks of a ramp: the cursor is at
1, and slot 0, where the first sample went, now holds the last one, 240 * 40. -/
theorem graph_ring_buffer_witness :
    (∀ i ∈ (List.range 241).map (fun n => (rampInput n : Input ℚ)),
        exitRequested i.keys = false) ∧
      240 ≤ ((List.range 241).map (fun n => (rampInput n : Input ℚ))).length ∧
      (runGraph ((List.range 241).map (fun n => (rampInput n : Input ℚ)))
        (setup (App.init none))).idx = 1 ∧
      (runGraph ((List.range 241).map (fun n => (rampInput n : Input ℚ)))
        (setup (App.init none))).bX[0]? = some 9600 := by
  have h1 : ∀ i ∈ (List.range 241).map (fun n => (rampInput n : Input ℚ)),
      exitRequested i.keys = false := by
    intro i hi
    obtain ⟨n, _, rfl⟩ := List.mem_map.mp hi
    rfl
  have hlen : ((List.range 241).map (fun n => (rampInput n : Input ℚ))).length = 241 := by
    rw [List.length_map, List.length_range]
  have h2 : 240 ≤ ((List.range 241).map (fun n => (rampInput n : Input ℚ))).length := by
    rw [hlen]
    norm_num
  have h3 := (graph_ring_buffer none _ h1 h2).1
  have h4 := ((graph_ring_buffer none _ h1 h2).2.2.2.2 239 (by norm_num)).1
  rw [hlen] at h3
  rw [h3, hlen] at h4
  have h5 : ((List.range 241).map (fun n => (rampInput n : Input ℚ)))[241 - 240 + 239]? =
      some (rampInput 240) := by
    rw [List.getElem?_map, List.getElem?_range (by norm_num)]
    rfl
  rw [h5] at h4
  refine ⟨h1, h2, h3, ?_⟩
  rw [show (0 : ℕ) = (241 % 240 + 239) % 240 from rfl, h4]
  norm_num [rampInput]

theorem exitInput_exits : exitRequested (exitInput : Input F).keys = true := by
  simp [exitRequested, exitInput]

/-- The very first tick of the tilt game exits: the ball is still at `(0, 0)`,
the initial value of the `static` floats, outside `[10, 230] × [10, 125]`. -/
theorem tilt_bounds_counterexample :
    exitRequested (exitInput : Input ℚ).keys = true ∧
      (runTilt [exitInput] (setup (App.init none)) : App ℚ).px = 0 ∧
      (runTilt [exitInput] (setup (App.init none)) : App ℚ).py = 0 ∧
      ¬ (10 ≤ (runTilt [exitInput] (setup (App.init none)) : App ℚ).px) := by
  have h : (runTilt [exitInput] (setup (App.init none)) : App ℚ) =
      demoTiltGame exitInput (setup (App.init none)) := rfl
  have hx : (runTilt [exitInput] (setup (App.init none)) : App ℚ).px = 0 := by
    rw [h, demoTiltGame_exit _ _ exitInput_exits]
    rfl
  have hy : (runTilt [exitInput] (setup (App.init none)) : App ℚ).py = 0 := by
    rw [h, demoTiltGame_exit _ _ exitInput_exits]
    rfl
  refine ⟨exitInput_exits, hx, hy, ?_⟩
  rw [hx]
  norm_num

/-- A run of the bounds theorem: an exit, then a violent shake; and a lone
exit. -/
theorem tilt_ball_in_bounds_witness :
    (∃ i ∈ [(exitInput : Input ℚ), shakeInput], exitRequested i.keys = false) ∧
      (10 ≤ (runTilt [exitInput, shakeInput] (setup (App.init none)) : App ℚ).px ∧
        (runTilt [exitInput, shakeInput] (setup (App.init none)) : App ℚ).px ≤ 230 ∧
        10 ≤ (runTilt [exitInput, shakeInput] (setup (App.init none)) : App ℚ).py ∧
        (runTilt [exitInput, shakeInput] (setup (App.init none)) : App ℚ).py ≤ 125) ∧
      (∀ i ∈ [(exitInput : Input ℚ)], exitRequested i.keys = true) ∧
      (runTilt [exitInput] (setup (App.init none)) : App ℚ).py = 0 :=
  ⟨⟨shakeInput, by simp, rfl⟩,
    (tilt_ball_in_bounds none [exitInput, shakeInput]).1 ⟨shakeInput, by simp, rfl⟩,
    by intro i hi; rw [List.mem_singleton.mp hi]; exact exitInput_exits,
    ((tilt_ball_in_bounds none [exitInput]).2
      (by intro i hi; rw [List.mem_singleton.mp hi]; exact exitInput_exits)).2⟩

/-- The state one tick after the start, when that tick reads `approachInput`:
the ball is at `(100, 100)`, the goal was hit, so the game is in the table
mode with no active goal. -/
theorem approach_state :
    (runTilt [approachInput] (setup (App.init none)) : App ℚ).px = 100 ∧
      (runTilt [approachInput] (setup (App.init none)) : App ℚ).py = 100 ∧
      (runTilt [approachInput] (setup (App.init none)) : App ℚ).firstRun = false ∧
      (runTilt [approachInput] (setup (App.init none)) : App ℚ).goalInit = false ∧
      (runTilt [approachInput] (setup (App.init none)) : App ℚ).isBubbleMode = false := by
  have h1 : (runTilt [approachInput] (setup (App.init none)) : App ℚ) =
      demoTiltGame approachInput (setup (App.init none)) := rfl
  obtain ⟨hx, hy⟩ := demoTiltGame_ball approachInput (setup (App.init none) : App ℚ) rfl
  obtain ⟨hgx, hgy⟩ := demoTiltGame_goal approachInput (setup (App.init none) : App ℚ) rfl
  obtain ⟨hf, hhit, -⟩ := demoTiltGame_flags approachInput (setup (App.init none) : App ℚ) rfl
  have e1 : (setup (App.init none) : App ℚ).isBubbleMode = true := rfl
  have e2 : (setup (App.init none) : App ℚ).firstRun = true := rfl
  have e3 : (setup (App.init none) : App ℚ).goalInit = false := rfl
  have e5 : (approachInput : Input ℚ).ax = -5 := rfl
  have e6 : (approachInput : Input ℚ).ay = -33 / 4 := rfl
  have e7 : (approachInput : Input ℚ).rand1 = 80 := rfl
  have e8 : (approachInput : Input ℚ).rand2 = 80 := rfl
  rw [e1, e2, e5] at hx
  rw [e1, e2, e6] at hy
  rw [e3, e7] at hgx
  rw [e3, e8] at hgy
  have hx2 : (demoTiltGame approachInput (setup (App.init none) : App ℚ)).px = 100 := by
    rw [hx]; norm_num [constrain]
  have hy2 : (demoTiltGame approachInput (setup (App.init none) : App ℚ)).py = 100 := by
    rw [hy]; norm_num [constrain]
  have hgx2 : (demoTiltGame approachInput (setup (App.init none) : App ℚ)).gx_g = 100 := by
    rw [hgx]; norm_num
  have hgy2 : (demoTiltGame approachInput (setup (App.init none) : App ℚ)).gy_g = 100 := by
    rw [hgy]; norm_num
  rw [hx2, hy2, hgx2, hgy2, e1] at hhit
  have hb := hhit (by norm_num)
  rw [h1]
  exact ⟨hx2, hy2, hf, hb.2, hb.1⟩

/-- One tick after the start the ball is at `(100, 100)` with no active goal.
The next tick places the goal at `(105, 105)` and reads a 10 G push along `x`:
the ball goes to `(60, 100)`, nothing is flipped and the goal stays active. -/
theorem tilt_collision_counterexample :
    (runTilt [approachInput] (setup (App.init none)) : App ℚ).px = 100 ∧
      (runTilt [approachInput] (setup (App.init none)) : App ℚ).py = 100 ∧
      exitRequested (shoveInput : Input ℚ).keys = false ∧
      (runTilt [approachInput, shoveInput] (setup (App.init none)) : App ℚ).gx_g = 105 ∧
      (runTilt [approachInput, shoveInput] (setup (App.init none)) : App ℚ).gy_g = 105 ∧
      (runTilt [approachInput, shoveInput] (setup (App.init none)) : App ℚ).px = 60 ∧
      (runTilt [approachInput, shoveInput] (setup (App.init none)) : App ℚ).py = 100 ∧
      (runTilt [approachInput, shoveInput] (setup (App.init none)) : App ℚ).goalInit = true ∧
      (runTilt [approachInput, shoveInput] (setup (App.init none)) : App ℚ).isBubbleMode =
        (runTilt [approachInput] (setup (App.init none)) : App ℚ).isBubbleMode := by
  obtain ⟨a1, a2, a3, a4, a5⟩ := approach_state
  have h2 : (runTilt [approachInput, shoveInput] (setup (App.init none)) : App ℚ) =
      demoTiltGame shoveInput (runTilt [approachInput] (setup (App.init none))) := rfl
  obtain ⟨hx, hy⟩ := demoTiltGame_ball shoveInput
    (runTilt [approachInput] (setup (App.init none)) : App ℚ) rfl
  obtain ⟨hgx, hgy⟩ := demoTiltGame_goal shoveInput
    (runTilt [approachInput] (setup (App.init none)) : App ℚ) rfl
  obtain ⟨-, -, hmiss⟩ := demoTiltGame_flags shoveInput
    (runTilt [approachInput] (setup (App.init none)) : App ℚ) rfl
  have e5 : (shoveInput : Input ℚ).ax = 10 := rfl
  have e6 : (shoveInput : Input ℚ).ay = 0 := rfl
  have e7 : (shoveInput : Input ℚ).rand1 = 85 := rfl
  have e8 : (shoveInput : Input ℚ).rand2 = 85 := rfl
  rw [a1, a3, a5, e5] at hx
  rw [a2, a3, a5, e6] at hy
  rw [a4, e7] at hgx
  rw [a4, e8] at hgy
  have hx2 : (demoTiltGame shoveInput
      (runTilt [approachInput] (setup (App.init none)) : App ℚ)).px = 60 := by
    rw [hx]; norm_num [constrain]
  have hy2 : (demoTiltGame shoveInput
      (runTilt [approachInput] (setup (App.init none)) : App ℚ)).py = 100 := by
    rw [hy]; norm_num [constrain]
  have hgx2 : (demoTiltGame shoveInput
      (runTilt [approachInput] (setup (App.init none)) : App ℚ)).gx_g = 105 := by
    rw [hgx]; norm_num
  have hgy2 : (demoTiltGame shoveInput
      (runTilt [approachInput] (setup (App.init none)) : App ℚ)).gy_g = 105 := by
    rw [hgy]; norm_num
  rw [hx2, hy2, hgx2, hgy2] at hmiss
  have hm := hmiss (by norm_num)
  rw [h2]
  exact ⟨a1, a2, rfl, hgx2, hgy2, hx2, hy2, hm.2, hm.1⟩

/-- A run of the collision theorem: one tick after the start the ball is at
`(100, 100)`; the next tick places the goal at `(105, 105)` with the device at
rest, and the game flips. -/
theorem tilt_collision_witness :
    (runTilt [approachInput, settleInput] (setup (App.init none)) : App ℚ).gx_g = 105 ∧
      (runTilt [approachInput, settleInput] (setup (App.init none)) : App ℚ).gy_g = 105 ∧
      (runTilt [approachInput, settleInput] (setup (App.init none)) : App ℚ).isBubbleMode =
        !(runTilt [approachInput] (setup (App.init none)) : App ℚ).isBubbleMode ∧
      (runTilt [approachInput, settleInput] (setup (App.init none)) : App ℚ).goalInit = false :=
  ⟨(tilt_collision none [] settleInput (runTilt [approachInput] (setup (App.init none)))
      approach_state.1 approach_state.2.1 approach_state.2.2.1 approach_state.2.2.2.1
      rfl rfl rfl).1,
    (tilt_collision none [] settleInput (runTilt [approachInput] (setup (App.init none)))
      approach_state.1 approach_state.2.1 approach_state.2.2.1 approach_state.2.2.2.1
      rfl rfl rfl).2.1,
    (tilt_collision none [] settleInput (runTilt [approachInput] (setup (App.init none)))
      approach_state.1 approach_state.2.1 approach_state.2.2.1 approach_state.2.2.2.1
      rfl rfl rfl).2.2.2.1 (by norm_num [settleInput]) (by norm_num [settleInput])⟩

/-- One tick with the goal placed on the ball flips the game to the table
mode; the exit tick that follows leaves `isBubbleMode` at `false`. -/
theorem tilt_reentry_counterexample :
    exitRequested (goalAtCentreInput : Input ℚ).keys = false ∧
      exitRequested (exitInput : Input ℚ).keys = true ∧
      (runTilt [goalAtCentreInput] (setup (App.init none)) : App ℚ).isBubbleMode = false ∧
      (runTilt [goalAtCentreInput, exitInput] (setup (App.init none)) : App ℚ).currentMode =
        AppMode.MODE_MENU ∧
      (runTilt [goalAtCentreInput, exitInput] (setup (App.init none)) : App ℚ).isBubbleMode =
        false ∧
      (runTilt [goalAtCentreInput, exitInput] (setup (App.init none)) : App ℚ).isBubbleMode ≠
        (App.init none : App ℚ).isBubbleMode := by
  have h1 : (runTilt [goalAtCentreInput] (setup (App.init none)) : App ℚ) =
      demoTiltGame goalAtCentreInput (setup (App.init none)) := rfl
  have h2 : (runTilt [goalAtCentreInput, exitInput] (setup (App.init none)) : App ℚ) =
      demoTiltGame exitInput (demoTiltGame goalAtCentreInput (setup (App.init none))) := rfl
  obtain ⟨hx, hy⟩ := demoTiltGame_ball goalAtCentreInput (setup (App.init none) : App ℚ) rfl
  obtain ⟨hgx, hgy⟩ := demoTiltGame_goal goalAtCentreInput (setup (App.init none) : App ℚ) rfl
  obtain ⟨-, hhit, -⟩ := demoTiltGame_flags goalAtCentreInput (setup (App.init none) : App ℚ) rfl
  have e1 : (setup (App.init none) : App ℚ).isBubbleMode = true := rfl
  have e2 : (setup (App.init none) : App ℚ).firstRun = true := rfl
  have e3 : (setup (App.init none) : App ℚ).goalInit = false := rfl
  have e5 : (goalAtCentreInput : Input ℚ).ax = 0 := rfl
  have e6 : (goalAtCentreInput : Input ℚ).ay = 0 := rfl
  have e7 : (goalAtCentreInput : Input ℚ).rand1 = 100 := rfl
  have e8 : (goalAtCentreInput : Input ℚ).rand2 = 47 := rfl
  rw [e1, e2, e5] at hx
  rw [e1, e2, e6] at hy
  rw [e3, e7] at hgx
  rw [e3, e8] at hgy
  have hx2 : (demoTiltGame goalAtCentreInput (setup (App.init none) : App ℚ)).px = 120 := by
    rw [hx]; norm_num [constrain]
  have hy2 : (demoTiltGame goalAtCentreInput (setup (App.init none) : App ℚ)).py = 67 := by
    rw [hy]; norm_num [constrain]
  have hgx2 : (demoTiltGame goalAtCentreInput (setup (App.init none) : App ℚ)).gx_g = 120 := by
    rw [hgx]; norm_num
  have hgy2 : (demoTiltGame goalAtCentreInput (setup (App.init none) : App ℚ)).gy_g = 67 := by
    rw [hgy]; norm_num
  rw [hx2, hy2, hgx2, hgy2, e1] at hhit
  have hb := (hhit (by norm_num)).1
  have hb2 : (demoTiltGame exitInput
      (demoTiltGame goalAtCentreInput (setup (App.init none) : App ℚ))).isBubbleMode = false := by
    rw [demoTiltGame_exit _ _ exitInput_exits]
    exact hb
  have hm : (demoTiltGame exitInput
      (demoTiltGame goalAtCentreInput (setup (App.init none) : App ℚ))).currentMode =
        AppMode.MODE_MENU := by
    rw [demoTiltGame_exit _ _ exitInput_exits]
  refine ⟨rfl, exitInput_exits, ?_, ?_, ?_, ?_⟩
  · rw [h1]; exact hb
  · rw [h2]; exact hm
  · rw [h2]; exact hb2
  · rw [h2, hb2]; decide

/-- A run of the re-entry theorem: an exit on a freshly started device, then
a shake. -/
theorem tilt_reentry_witness :
    (demoTiltGame exitInput (setup (App.init none) : App ℚ)).firstRun = true ∧
      (demoTiltGame exitInput (setup (App.init none) : App ℚ)).goalInit = false ∧
      (demoTiltGame shakeInput (demoTiltGame exitInput (setup (App.init none) : App ℚ))).gx_g =
        20 :=
  ⟨(tilt_reentry exitInput shakeInput (setup (App.init none) : App ℚ) exitInput_exits rfl).2.1,
    (tilt_reentry exitInput shakeInput (setup (App.init none) : App ℚ) exitInput_exits rfl).2.2.1,
    (tilt_reentry exitInput shakeInput (setup (App.init none) : App ℚ)
      exitInput_exits rfl).2.2.2.2.2.2.1⟩

end Theorems

end MotionLab
